import Mathlib

/-!
Verification of the LifeSignal Firebase backend: a shallow embedding of the
contact-relationship cloud functions (`addContactRelation`,
`updateContactRelation`, `pingDependent`, `respondToPing`,
`respondToAllPings`, `clearPing`) and of the reminder scanner
(`handleNotifications`), together with theorems settling claims about
relationship symmetry, ping pairing, error propagation and the reminder
windows.

Modelling conventions:
* Firestore timestamps are `Int` milliseconds since epoch.
* A Firestore `DocumentReference` is modelled by its path string; an absent
  (undefined) field is `none`.
* The database is `Store : String → Option UserDoc` mapping a document path
  to the document, `dbSet` is a single-document write.
* JavaScript truthiness on strings (empty string is falsy) is modelled by
  `jsOrS`, which mirrors `a || b` on optional path-valued expressions.
* `doc.data().contacts` that is not an array is replaced by `[]` in the
  source; documents are therefore modelled with `contacts` already a list.
* Each `onCall` handler returns `Except Err α`; a thrown `HttpsError` is the
  `.error` case carrying the code and message actually surfaced to the
  caller.  All throws in these handlers happen before any document write, so
  an `.error` result leaves the store untouched (`runOp` makes this
  explicit).
-/

/-- Failure kinds of `HttpsError` used by the backend. -/
inductive ErrCode where
  | unauthenticated
  | invalidArgument
  | notFound
  | alreadyExists
  | failedPrecondition
  | internalErr
deriving DecidableEq

/-- An `HttpsError`: the code and human-readable message surfaced to the caller. -/
structure Err where
  code : ErrCode
  msg : String
deriving DecidableEq

/-- A contact entry embedded in a user document (models `ContactReference` of
`models/interfaces.ts`).  `reference` is the legacy `DocumentReference` field
(modelled by its path), `referencePath` the new path-string field, and
`contact` the oldest embedded-reference field (`c.contact`, modelled by its
path), all optional. -/
structure ContactEntry where
  reference : Option String
  referencePath : Option String
  contact : Option String
  isResponder : Bool
  isDependent : Bool
  sendPings : Option Bool
  receivePings : Option Bool
  notifyOnCheckIn : Option Bool
  notifyOnExpiry : Option Bool
  nickname : Option String
  notes : Option String
  lastUpdated : Option Int
  incomingPingTimestamp : Option Int
  outgoingPingTimestamp : Option Int
deriving DecidableEq

/-- A user document (models `UserProfile`).  `lastCheckedIn` is optional so
that a malformed record (missing field, on which `user.lastCheckedIn.toDate()`
throws in the scanner) is representable.  The optional boolean reminder flags
are modelled as `Bool` because an absent flag behaves exactly like `false` in
every use. -/
structure UserDoc where
  name : String
  fcmToken : Option String
  checkInInterval : Int
  lastCheckedIn : Option Int
  notify2HoursBefore : Bool
  notify30MinBefore : Bool
  contacts : List ContactEntry
deriving DecidableEq

/-- The document database: path → document. -/
def Store : Type := String → Option UserDoc

/-- Write one document (per-document atomic update). -/
def dbSet (s : Store) (p : String) (d : UserDoc) : Store :=
  fun q => if q = p then some d else s q

/-- JavaScript `a || b` on optional path-valued expressions: an undefined
(`none`) or empty-string value of `a` is falsy and yields `b` unchanged. -/
def jsOrS (a b : Option String) : Option String :=
  match a with
  | some v => if v = "" then b else some v
  | none => b

/-- `c.reference?.path || c.referencePath` — the resolution used by
`pingDependent`, `respondToPing`, `respondToAllPings`, `clearPing` and
`updateContactRoles`. -/
def resolvePR (c : ContactEntry) : Option String :=
  jsOrS c.reference c.referencePath

/-- `c.reference?.path || c.contact?.path` — the resolution used by
`updateContactRelation`. -/
def resolveUCR (c : ContactEntry) : Option String :=
  jsOrS c.reference c.contact

/-- `c.reference?.path || c.referencePath || c.contact?.path` — the resolution
used by the duplicate check of `addContactRelation`. -/
def resolveAdd (c : ContactEntry) : Option String :=
  jsOrS c.reference (jsOrS c.referencePath c.contact)

/-- `findIndex` by a resolver followed by an in-place assignment at the found
index: replaces the first entry whose resolved path equals `t` by its
`f`-image, and leaves the list unchanged when no entry matches. -/
def updateFirstBy (res : ContactEntry → Option String) (t : Option String)
    (f : ContactEntry → ContactEntry) : List ContactEntry → List ContactEntry
  | [] => []
  | c :: cs => if res c == t then f c :: cs else c :: updateFirstBy res t f cs

/-- The caller-side entry built by `addContactRelation` (stores the path as a
string in `referencePath`; ping timestamps start absent as in the source,
where the fields are simply not present on the new object). -/
def mkUserEntry (contactPath : String) (isResponder isDependent : Bool) (now : Int) : ContactEntry where
  reference := none
  referencePath := some contactPath
  contact := none
  isResponder := isResponder
  isDependent := isDependent
  sendPings := some true
  receivePings := some true
  notifyOnCheckIn := some isResponder
  notifyOnExpiry := some isResponder
  nickname := none
  notes := none
  lastUpdated := some now
  incomingPingTimestamp := none
  outgoingPingTimestamp := none

/-- The mirrored entry appended to the scanned user's document by
`addContactRelation`: role flags swapped. -/
def mkContactEntry (userPath : String) (isResponder isDependent : Bool) (now : Int) : ContactEntry where
  reference := none
  referencePath := some userPath
  contact := none
  isResponder := isDependent
  isDependent := isResponder
  sendPings := some true
  receivePings := some true
  notifyOnCheckIn := some isDependent
  notifyOnExpiry := some isDependent
  nickname := none
  notes := none
  lastUpdated := some now
  incomingPingTimestamp := none
  outgoingPingTimestamp := none

/-- `functions/addContactRelation.ts`.  `qrl` models the `qr_lookup`
collection (QR code → matched document id); `auth` whether the request is
authenticated.  The surrounding `catch` rethrows `HttpsError(error.code ||
"internal", error.message || ...)`: for the `HttpsError`s thrown in the body
both code and message are non-empty and are preserved, so the wrapper is the
identity on them. -/
def addContactRelation (s : Store) (qrl : String → Option String) (auth : Bool)
    (userId qrCode : String) (isResponder isDependent : Bool) (now : Int) :
    Except Err (Store × String) :=
  if auth = false then
    .error ⟨.unauthenticated, "Authentication required."⟩
  else if userId = "" ∨ qrCode = "" then
    .error ⟨.invalidArgument, "User ID and QR code are required."⟩
  else
    match qrl qrCode with
    | none => .error ⟨.notFound, "No user found with the provided QR code."⟩
    | some contactUserId =>
      if userId = contactUserId then
        .error ⟨.invalidArgument, "Cannot add yourself as a contact."⟩
      else
        match s ("users/" ++ userId), s ("users/" ++ contactUserId) with
        | some userData, some contactData =>
          match userData.contacts.find? (fun c => resolveAdd c == some ("users/" ++ contactUserId)) with
          | some _ => .error ⟨.alreadyExists, "This user is already in your contacts."⟩
          | none =>
            .ok (dbSet (dbSet s ("users/" ++ userId)
                    { userData with contacts := userData.contacts ++ [mkUserEntry ("users/" ++ contactUserId) isResponder isDependent now] })
                  ("users/" ++ contactUserId)
                  { contactData with contacts := contactData.contacts ++ [mkContactEntry ("users/" ++ userId) isResponder isDependent now] },
                 contactUserId)
        | _, _ => .error ⟨.notFound, "One or both users not found."⟩

/-- State-transformer view of an operation result: a thrown error leaves the
store unchanged (every throw in the handlers happens before any write). -/
def runOp (s : Store) (r : Except Err Store) : Store × Option Err :=
  match r with
  | .ok s' => (s', none)
  | .error e => (s, some e)

/-- Set the outgoing ping on an entry (`pingDependent`, caller side). -/
def setOutgoing (now : Int) (c : ContactEntry) : ContactEntry :=
  { c with outgoingPingTimestamp := some now, lastUpdated := some now }

/-- Set the incoming ping on an entry (`pingDependent`, contact side). -/
def setIncoming (now : Int) (c : ContactEntry) : ContactEntry :=
  { c with incomingPingTimestamp := some now, lastUpdated := some now }

/-- Clear the incoming ping on an entry (`respondToPing` caller side,
`respondToAllPings`, `clearPing` contact side). -/
def clearIncoming (now : Int) (c : ContactEntry) : ContactEntry :=
  { c with incomingPingTimestamp := none, lastUpdated := some now }

/-- Clear the outgoing ping on an entry (`respondToPing` contact side,
`clearPing` caller side). -/
def clearOutgoing (now : Int) (c : ContactEntry) : ContactEntry :=
  { c with outgoingPingTimestamp := none, lastUpdated := some now }

/-- Body of `functions/data_management/pingDependent.ts` (the code inside the
`try`). -/
def pingDependentBody (s : Store) (userRefPath contactRefPath : String) (now : Int) :
    Except Err Store :=
  match s userRefPath, s contactRefPath with
  | some userData, some contactData =>
    match userData.contacts.find? (fun c => resolvePR c == some contactRefPath),
          contactData.contacts.find? (fun c => resolvePR c == some userRefPath) with
    | some userContact, some _ =>
      if userContact.isDependent = false then
        .error ⟨.failedPrecondition, "Contact is not a dependent."⟩
      else
        .ok (dbSet (dbSet s userRefPath
              { userData with contacts := updateFirstBy resolvePR (some contactRefPath) (setOutgoing now) userData.contacts })
              contactRefPath
              { contactData with contacts := updateFirstBy resolvePR (some userRefPath) (setIncoming now) contactData.contacts })
    | _, _ => .error ⟨.notFound, "Contact relationship not found."⟩
  | _, _ => .error ⟨.notFound, "One or both users not found."⟩

/-- `pingDependent`: guards, then the body; the `catch` rethrows every error
from the body as `HttpsError("internal", "Failed to send ping to dependent: "
+ error.message)` — the original code, including `failed-precondition`, is
discarded.  The push notification to the contact is fire-and-forget and does
not affect the result. -/
def pingDependent (s : Store) (auth : Bool) (userRefPath contactRefPath : String) (now : Int) :
    Except Err Store :=
  if auth = false then
    .error ⟨.unauthenticated, "Authentication required."⟩
  else if userRefPath = "" ∨ contactRefPath = "" then
    .error ⟨.invalidArgument, "Both user and contact references are required."⟩
  else
    match pingDependentBody s userRefPath contactRefPath now with
    | .ok s' => .ok s'
    | .error e => .error ⟨.internalErr, "Failed to send ping to dependent: " ++ e.msg⟩

/-- Body of `respondToPing.ts` (the code inside the `try`). -/
def respondToPingBody (s : Store) (userRefPath contactRefPath : String) (now : Int) :
    Except Err Store :=
  match s userRefPath, s contactRefPath with
  | some userData, some contactData =>
    match userData.contacts.find? (fun c => resolvePR c == some contactRefPath),
          contactData.contacts.find? (fun c => resolvePR c == some userRefPath) with
    | some _, some _ =>
      .ok (dbSet (dbSet s userRefPath
            { userData with contacts := updateFirstBy resolvePR (some contactRefPath) (clearIncoming now) userData.contacts })
            contactRefPath
            { contactData with contacts := updateFirstBy resolvePR (some userRefPath) (clearOutgoing now) contactData.contacts })
    | _, _ => .error ⟨.notFound, "Contact relationship not found."⟩
  | _, _ => .error ⟨.notFound, "One or both users not found."⟩

/-- `respondToPing`: guards, body, and the `catch` that rethrows everything as
`internal`. -/
def respondToPing (s : Store) (auth : Bool) (userRefPath contactRefPath : String) (now : Int) :
    Except Err Store :=
  if auth = false then
    .error ⟨.unauthenticated, "Authentication required."⟩
  else if userRefPath = "" ∨ contactRefPath = "" then
    .error ⟨.invalidArgument, "Both user and contact references are required."⟩
  else
    match respondToPingBody s userRefPath contactRefPath now with
    | .ok s' => .ok s'
    | .error e => .error ⟨.internalErr, "Failed to respond to ping: " ++ e.msg⟩

/-- Body of `clearPing.ts` (the code inside the `try`). -/
def clearPingBody (s : Store) (userRefPath contactRefPath : String) (now : Int) :
    Except Err Store :=
  match s userRefPath, s contactRefPath with
  | some userData, some contactData =>
    match userData.contacts.find? (fun c => resolvePR c == some contactRefPath),
          contactData.contacts.find? (fun c => resolvePR c == some userRefPath) with
    | some userContact, some _ =>
      if userContact.isDependent = false then
        .error ⟨.failedPrecondition, "Contact is not a dependent."⟩
      else
        .ok (dbSet (dbSet s userRefPath
              { userData with contacts := updateFirstBy resolvePR (some contactRefPath) (clearOutgoing now) userData.contacts })
              contactRefPath
              { contactData with contacts := updateFirstBy resolvePR (some userRefPath) (clearIncoming now) contactData.contacts })
    | _, _ => .error ⟨.notFound, "Contact relationship not found."⟩
  | _, _ => .error ⟨.notFound, "One or both users not found."⟩

/-- `clearPing`: guards, body, catch-all rethrow as `internal`. -/
def clearPing (s : Store) (auth : Bool) (userRefPath contactRefPath : String) (now : Int) :
    Except Err Store :=
  if auth = false then
    .error ⟨.unauthenticated, "Authentication required."⟩
  else if userRefPath = "" ∨ contactRefPath = "" then
    .error ⟨.invalidArgument, "Both user and contact references are required."⟩
  else
    match clearPingBody s userRefPath contactRefPath now with
    | .ok s' => .ok s'
    | .error e => .error ⟨.internalErr, "Failed to clear ping: " ++ e.msg⟩

/-- One step of the `respondToAllPings` loop: `findIndex` of the first entry
whose resolved path is (`===`) the pinged entry's resolved path (`undefined
=== undefined` is true, hence comparison of the raw optional values), then
clear its incoming ping in place; no match leaves the list unchanged. -/
def clearIncomingFirst (now : Int) (acc : List ContactEntry) (p : Option String) :
    List ContactEntry :=
  updateFirstBy resolvePR p (clearIncoming now) acc

/-- Body of `respondToAllPings` (in `respondToPing.ts`): collect the entries
with a (truthy) incoming ping from the caller's contact list, clear each of
them in the caller's list only, and write back only the caller's document.
The early return when no entry is pinged performs no write. -/
def respondToAllPingsBody (s : Store) (userRefPath : String) (now : Int) :
    Except Err Store :=
  match s userRefPath with
  | none => .error ⟨.notFound, "User not found."⟩
  | some userData =>
    if (userData.contacts.filter (fun c => c.incomingPingTimestamp.isSome)).isEmpty then
      .ok s
    else
      .ok (dbSet s userRefPath
        { userData with contacts :=
            ((userData.contacts.filter (fun c => c.incomingPingTimestamp.isSome)).foldl
              (fun acc ct => clearIncomingFirst now acc (resolvePR ct)) userData.contacts) })

/-- `respondToAllPings`: guards, body, catch-all rethrow as `internal`. -/
def respondToAllPings (s : Store) (auth : Bool) (userRefPath : String) (now : Int) :
    Except Err Store :=
  if auth = false then
    .error ⟨.unauthenticated, "Authentication required."⟩
  else if userRefPath = "" then
    .error ⟨.invalidArgument, "User reference is required."⟩
  else
    match respondToAllPingsBody s userRefPath now with
    | .ok s' => .ok s'
    | .error e => .error ⟨.internalErr, "Failed to respond to all pings: " ++ e.msg⟩

/-- The partial-update request of `updateContactRelation.ts`: `none` models a
field absent from the request (`undefined`).  `updateReciprocal` defaults to
`true` at destructuring, so it is modelled as the resolved boolean. -/
structure UpdateReq where
  isResponder : Option Bool
  isDependent : Option Bool
  sendPings : Option Bool
  receivePings : Option Bool
  notifyOnCheckIn : Option Bool
  notifyOnExpiry : Option Bool
  nickname : Option String
  notes : Option String
  updateReciprocal : Bool
deriving DecidableEq

/-- The update applied to the caller's own entry: every provided field is
copied onto the entry, `lastUpdated` is refreshed, everything else is kept. -/
def applyReqUser (req : UpdateReq) (now : Int) (c : ContactEntry) : ContactEntry :=
  { c with
    lastUpdated := some now
    isResponder := req.isResponder.getD c.isResponder
    isDependent := req.isDependent.getD c.isDependent
    sendPings := match req.sendPings with | some b => some b | none => c.sendPings
    receivePings := match req.receivePings with | some b => some b | none => c.receivePings
    notifyOnCheckIn := match req.notifyOnCheckIn with | some b => some b | none => c.notifyOnCheckIn
    notifyOnExpiry := match req.notifyOnExpiry with | some b => some b | none => c.notifyOnExpiry
    nickname := match req.nickname with | some v => some v | none => c.nickname
    notes := match req.notes with | some v => some v | none => c.notes }

/-- The update applied to the reciprocal entry (lines 142-156 of
`updateContactRelation.ts`): role flags are mirrored swapped when provided,
ping preferences are mirrored swapped when provided, `lastUpdated` is
refreshed, all other fields are kept. -/
def applyReqRecip (req : UpdateReq) (now : Int) (c : ContactEntry) : ContactEntry :=
  { c with
    lastUpdated := some now
    isDependent := req.isResponder.getD c.isDependent
    isResponder := req.isDependent.getD c.isResponder
    receivePings := match req.sendPings with | some b => some b | none => c.receivePings
    sendPings := match req.receivePings with | some b => some b | none => c.sendPings }

/-- Body of `updateContactRelation.ts` (the code inside the `try`).  The
caller's entry is looked up with `c.reference?.path || c.contact?.path` —
note the absence of the `referencePath` format written by
`addContactRelation`. -/
def updateContactRelationBody (s : Store) (userRefPath contactRefPath : String)
    (req : UpdateReq) (now : Int) : Except Err Store :=
  match s userRefPath, s contactRefPath with
  | some userData, some contactData =>
    match userData.contacts.find? (fun c => resolveUCR c == some contactRefPath) with
    | none => .error ⟨.notFound, "Contact relationship not found."⟩
    | some _ =>
      if req.updateReciprocal then
        match contactData.contacts.find? (fun c => resolveUCR c == some userRefPath) with
        | some _ =>
          .ok (dbSet (dbSet s userRefPath
              { userData with contacts := updateFirstBy resolveUCR (some contactRefPath) (applyReqUser req now) userData.contacts })
            contactRefPath
            { contactData with contacts := updateFirstBy resolveUCR (some userRefPath) (applyReqRecip req now) contactData.contacts })
        | none =>
          .ok (dbSet s userRefPath
            { userData with contacts := updateFirstBy resolveUCR (some contactRefPath) (applyReqUser req now) userData.contacts })
      else
        .ok (dbSet s userRefPath
          { userData with contacts := updateFirstBy resolveUCR (some contactRefPath) (applyReqUser req now) userData.contacts })
  | _, _ => .error ⟨.notFound, "One or both users not found."⟩

/-- `updateContactRelation`: guards, body, and the `catch` that rethrows
everything as `HttpsError("internal", error.message || ...)` — the message is
preserved, the code is replaced by `internal`. -/
def updateContactRelation (s : Store) (auth : Bool) (userRefPath contactRefPath : String)
    (req : UpdateReq) (now : Int) : Except Err Store :=
  if auth = false then
    .error ⟨.unauthenticated, "Authentication required."⟩
  else if userRefPath = "" ∨ contactRefPath = "" then
    .error ⟨.invalidArgument, "Both user and contact references are required."⟩
  else
    match updateContactRelationBody s userRefPath contactRefPath req now with
    | .ok s' => .ok s'
    | .error e => .error ⟨.internalErr, e.msg⟩

/-- A push message handed to `messaging.send`. -/
structure Notif where
  token : String
  title : String
  body : String
deriving DecidableEq

/-- The per-user exception of the scanner loop: reading
`user.lastCheckedIn.toDate()` on a record without the field throws a
`TypeError`, which nothing in `handleNotifications` catches. -/
inductive ScanErr where
  | missingLastCheckedIn (docId : String)
deriving DecidableEq

/-- JavaScript truthiness of an optional string token (`!token` also rejects
the empty string). -/
def tokenTruthy : Option String → Option String
  | some t => if t = "" then none else some t
  | none => none

/-- The reference used by the expired-check-in branch: `contact.reference`
(an object, truthy whenever present) first, else a truthy
`contact.referencePath`, else skip with a warning. -/
def refForEmergency (c : ContactEntry) : Option String :=
  match c.reference with
  | some r => some r
  | none =>
    match c.referencePath with
    | some p => if p = "" then none else some p
    | none => none

/-- The notifications sent for one responder entry of an expired user: skip
non-responders, entries with no usable reference, unresolvable documents and
documents without a truthy token; otherwise one emergency alert. -/
def emergencyFor (s : Store) (userName : String) (c : ContactEntry) : List Notif :=
  if c.isResponder = false then []
  else
    match refForEmergency c with
    | none => []
    | some path =>
      match s path with
      | none => []
      | some contactData =>
        match tokenTruthy contactData.fcmToken with
        | none => []
        | some contactToken =>
          [⟨contactToken, "Emergency Alert", userName ++ "\x27s check-in has expired."⟩]

/-- The millisecond thresholds of the reminder windows.  All four evaluate to
exact integers in binary64: `2*60*60*1000 = 7200000`, `30*60*1000 = 1800000`,
`29*60*1000 = 1740000`, and `1.9*60*60*1000 = 6840000` exactly (`1.9*60`
rounds to exactly `114`), so the source's strict `<`/`>` comparisons carry
over to the integer thresholds unchanged. -/
def twoHoursMs : Int := 7200000

/-- Lower bound of the 2-hour reminder window, excluded by the source's
strict `timeLeft > 1.9*60*60*1000` (see `twoHoursMs`). -/
def earlyLowMs : Int := 6840000

/-- Upper bound of the 30-minute reminder window. -/
def thirtyMinMs : Int := 1800000

/-- Lower bound of the 30-minute reminder window. -/
def twentyNineMinMs : Int := 1740000

/-- Processing of a single user document in the `handleNotifications` loop
(`utils/handleNotifications.ts`, lines 25-100): read `lastCheckedIn` (throws
if missing), compute `expiry = lastCheckedIn + checkInInterval` and
`timeLeft = expiry - now` (the interval is added unconverted to the
millisecond timestamp), skip users without a truthy token before any branch,
then the 2-hour window, the 30-minute window, and the expired branch over the
contact list in that order. -/
def notifsForUser (s : Store) (now : Int) (docId : String) (user : UserDoc) :
    Except ScanErr (List Notif) :=
  match user.lastCheckedIn with
  | none => .error (.missingLastCheckedIn docId)
  | some lastCheckedIn =>
    match tokenTruthy user.fcmToken with
    | none => .ok []
    | some token =>
      .ok
        ((if user.notify2HoursBefore = true ∧
              lastCheckedIn + user.checkInInterval - now < twoHoursMs ∧
              earlyLowMs < lastCheckedIn + user.checkInInterval - now then
            [⟨token, "Check-in Reminder", "Your check-in expires in 2 hours"⟩]
          else []) ++
         (if user.notify30MinBefore = true ∧
              lastCheckedIn + user.checkInInterval - now < thirtyMinMs ∧
              twentyNineMinMs < lastCheckedIn + user.checkInInterval - now then
            [⟨token, "Check-in Reminder", "Your check-in expires in 30 minutes"⟩]
          else []) ++
         (if now > lastCheckedIn + user.checkInInterval then
            user.contacts.foldr (fun c acc => emergencyFor s user.name c ++ acc) []
          else []))

/-- The `handleNotifications` scan over the snapshot of the `users`
collection: users are processed in order; the notifications sent so far are
kept, and an uncaught per-user exception aborts the whole loop, dropping
every remaining user. -/
def scanUsers (s : Store) (now : Int) : List (String × UserDoc) → List Notif × Option ScanErr
  | [] => ([], none)
  | (docId, user) :: rest =>
    match notifsForUser s now docId user with
    | .error e => ([], some e)
    | .ok ns => (ns ++ (scanUsers s now rest).1, (scanUsers s now rest).2)

/-! ### Derived predicates used by the theorems -/

/-- The entry of the document at `p` referencing the path `q`, under the
`reference?.path || referencePath` resolution used by the ping operations
(the entry those operations read and update: the first match). -/
def entryFor (s : Store) (p q : String) : Option ContactEntry :=
  (s p).bind (fun d => d.contacts.find? (fun c => resolvePR c == some q))

/-- Ping pairing on one ordered pair of (possibly absent) mirrored entries:
whenever both entries exist, the outgoing ping of the first equals the
incoming ping of the second (equality of optional instants: non-null on one
side exactly when non-null on the other, and then the same instant). -/
def pingMirrored : Option ContactEntry → Option ContactEntry → Prop
  | some ea, some eb => ea.outgoingPingTimestamp = eb.incomingPingTimestamp
  | _, _ => True

instance instDecidablePingMirrored : (a b : Option ContactEntry) → Decidable (pingMirrored a b)
  | some _, some _ => inferInstanceAs (Decidable (_ = _))
  | some _, none => inferInstanceAs (Decidable True)
  | none, _ => inferInstanceAs (Decidable True)

/-- The ping-pairing invariant for the ordered pair `(pa, pb)`:
`A.entry(B).outgoingPingTimestamp = B.entry(A).incomingPingTimestamp`
whenever both mirrored entries exist. -/
def pairPing (s : Store) (pa pb : String) : Prop :=
  pingMirrored (entryFor s pa pb) (entryFor s pb pa)

instance instDecidablePairPing (s : Store) (pa pb : String) : Decidable (pairPing s pa pb) :=
  instDecidablePingMirrored (entryFor s pa pb) (entryFor s pb pa)

/-- The two-sided ping operations of the Relationship Manager. -/
inductive PingOp where
  | ping (userRefPath contactRefPath : String)
  | respond (userRefPath contactRefPath : String)
  | clear (userRefPath contactRefPath : String)

/-- Dispatch of a `PingOp` to the corresponding (authenticated) handler. -/
def applyPingOp (s : Store) (now : Int) : PingOp → Except Err Store
  | .ping u c => pingDependent s true u c now
  | .respond u c => respondToPing s true u c now
  | .clear u c => clearPing s true u c now

/-- The operation relates two distinct user documents (self-pings are not a
meaningful request; with equal paths the two concurrent writes of the handler
race on the same document). -/
def PingOp.argsDistinct : PingOp → Prop
  | .ping u c => u ≠ c
  | .respond u c => u ≠ c
  | .clear u c => u ≠ c

/-- Number of entries of a contact list referencing `p`, under the resolution
used by `addContactRelation`'s duplicate check. -/
def countRefAdd (l : List ContactEntry) (p : String) : Nat :=
  (l.filter (fun c => resolveAdd c == some p)).length

/-- The role flags `(isResponder, isDependent)` of the first entry of the
document at `p` referencing `q`. -/
def rolesAt (s : Store) (p q : String) : Option (Bool × Bool) :=
  (s p).bind (fun d =>
    (d.contacts.find? (fun c => resolveAdd c == some q)).map (fun c => (c.isResponder, c.isDependent)))

/-- Boolean predicate over an optional document (trivially true when the
document is absent). -/
def optAll (o : Option UserDoc) (p : UserDoc → Bool) : Bool :=
  match o with
  | some d => p d
  | none => true

/-- State-transformer view of `addContactRelation` (errors leave the store
unchanged: every throw happens before the writes). -/
def runAdd (s : Store) (r : Except Err (Store × String)) : Store × Option Err :=
  match r with
  | .ok (s', _) => (s', none)
  | .error e => (s, some e)

/-- The reciprocal entry `updateContactRelation` touches: the first entry of
the document at `c` resolving (via `reference?.path || contact?.path`) to the
caller path `u`. -/
def recipEntry (s : Store) (u c : String) : Option ContactEntry :=
  (s c).bind (fun d => d.contacts.find? (fun e => resolveUCR e == some u))

/-! ### Concrete fixtures for witnesses and counterexamples -/

/-- The all-absent store, used as fallback by result extractors. -/
def emptyStore : Store := fun _ => none

/-- A fresh user document with no contacts. -/
def freshDoc (nm : String) (tok : Option String) : UserDoc where
  name := nm
  fcmToken := tok
  checkInInterval := 7200000
  lastCheckedIn := some 0
  notify2HoursBefore := false
  notify30MinBefore := false
  contacts := []

/-- QR lookup fixture: token `"qa"` resolves to user id `"a"`, `"qb"` to
`"b"`. -/
def qrl0 : String → Option String :=
  fun t => if t = "qa" then some "a" else if t = "qb" then some "b" else none

/-- Store fixture for `addContactRelation`: two unrelated users. -/
def sAdd : Store :=
  fun p =>
    if p = "users/a" then some (freshDoc "Alice" (some "tokA"))
    else if p = "users/b" then some (freshDoc "Bob" (some "tokB")) else none

/-- Result of user `a` adding user `b` (roles: `b` is a responder of `a`). -/
def addRes0 : Except Err (Store × String) :=
  addContactRelation sAdd qrl0 true "a" "qb" true false 10

/-- The store after the successful `addRes0`. -/
def sAdd1 : Store :=
  match addRes0 with
  | .ok (t, _) => t
  | .error _ => emptyStore

/-- A pure preference update (nickname only, no role fields), as a client
would send after adding a contact. -/
def reqC5 : UpdateReq where
  isResponder := none
  isDependent := none
  sendPings := none
  receivePings := none
  notifyOnCheckIn := none
  notifyOnExpiry := none
  nickname := some "Bobby"
  notes := none
  updateReciprocal := true

/-- A contact entry fixture in the new `referencePath` format. -/
def mkEntryRP (path : String) (resp dep : Bool) (incoming outgoing : Option Int) : ContactEntry where
  reference := none
  referencePath := some path
  contact := none
  isResponder := resp
  isDependent := dep
  sendPings := some true
  receivePings := some true
  notifyOnCheckIn := some resp
  notifyOnExpiry := some resp
  nickname := none
  notes := none
  lastUpdated := some 0
  incomingPingTimestamp := incoming
  outgoingPingTimestamp := outgoing

/-- A contact entry fixture in the legacy `reference` format. -/
def mkEntryRef (path : String) (resp dep : Bool) : ContactEntry where
  reference := some path
  referencePath := none
  contact := none
  isResponder := resp
  isDependent := dep
  sendPings := some true
  receivePings := some true
  notifyOnCheckIn := some resp
  notifyOnExpiry := some resp
  nickname := none
  notes := none
  lastUpdated := some 0
  incomingPingTimestamp := none
  outgoingPingTimestamp := none

/-- Store fixture for `pingDependent`'s role guard: `a`'s entry for `b` has
`isDependent = false`, both mirrored entries exist. -/
def sC4 : Store :=
  fun p =>
    if p = "users/a" then
      some { freshDoc "Alice" (some "tokA") with contacts := [mkEntryRP "users/b" true false none none] }
    else if p = "users/b" then
      some { freshDoc "Bob" (some "tokB") with contacts := [mkEntryRP "users/a" false true none none] }
    else none

/-- Store fixture with one pending ping from `a` to `b` (pairing holds:
`a`'s outgoing and `b`'s incoming both `5`). -/
def sPing2 : Store :=
  fun p =>
    if p = "users/a" then
      some { freshDoc "Alice" (some "tokA") with contacts := [mkEntryRP "users/b" false true none (some 5)] }
    else if p = "users/b" then
      some { freshDoc "Bob" (some "tokB") with contacts := [mkEntryRP "users/a" true false (some 5) none] }
    else none

/-- Store after `respondToAllPings` by `b` on `sPing2`. -/
def rtapC2Res : Store :=
  match respondToAllPings sPing2 true "users/b" 9 with
  | .ok t => t
  | .error _ => emptyStore

/-- Store after `respondToPing` by `b` towards `a` on `sPing2`. -/
def c2WitRes : Store :=
  match applyPingOp sPing2 9 (.respond "users/b" "users/a") with
  | .ok t => t
  | .error _ => emptyStore

/-- Store fixture for `respondToAllPings`: `b` has two pinged entries (from
`a` and from `x`), both senders hold the matching outgoing pings. -/
def sPing7 : Store :=
  fun p =>
    if p = "users/a" then
      some { freshDoc "Alice" (some "tokA") with contacts := [mkEntryRP "users/b" false true none (some 5)] }
    else if p = "users/x" then
      some { freshDoc "Xerxes" (some "tokX") with contacts := [mkEntryRP "users/b" false true none (some 6)] }
    else if p = "users/b" then
      some { freshDoc "Bob" (some "tokB") with contacts :=
        [mkEntryRP "users/a" true false (some 5) none, mkEntryRP "users/x" true false (some 6) none] }
    else none

/-- Store after `respondToAllPings` by `b` on `sPing7`. -/
def c7Res : Store :=
  match respondToAllPings sPing7 true "users/b" 9 with
  | .ok t => t
  | .error _ => emptyStore

/-- Whether every entry of `b`'s document in `c7Res` has a cleared incoming
ping. -/
def c7AllCleared : Bool :=
  optAll (c7Res "users/b") (fun d => d.contacts.all (fun c => c.incomingPingTimestamp == none))

/-- Store fixture for `updateContactRelation` with legacy-format entries on
both sides (so that both lookups succeed); the reciprocal entry starts with
`isResponder = false`, `isDependent = false`. -/
def sC6 : Store :=
  fun p =>
    if p = "users/a" then
      some { freshDoc "Alice" (some "tokA") with contacts := [mkEntryRef "users/b" true false] }
    else if p = "users/b" then
      some { freshDoc "Bob" (some "tokB") with contacts := [mkEntryRef "users/a" false false] }
    else none

/-- A request carrying role fields (and nothing else), with
`updateReciprocal = true`. -/
def reqC6 : UpdateReq where
  isResponder := some true
  isDependent := some false
  sendPings := none
  receivePings := none
  notifyOnCheckIn := none
  notifyOnExpiry := none
  nickname := none
  notes := none
  updateReciprocal := true

/-- Store after `updateContactRelation` with `reqC6` on `sC6`. -/
def c6Res : Store :=
  match updateContactRelation sC6 true "users/a" "users/b" reqC6 7 with
  | .ok t => t
  | .error _ => emptyStore

/-- The scan instant used by the scanner fixtures. -/
def nowC3 : Int := 10000000

/-- A responder document holding a valid push token. -/
def rDoc : UserDoc := freshDoc "Rita" (some "tokR")

/-- Store used by the scanner fixtures to resolve contact references. -/
def sScan : Store := fun p => if p = "users/r" then some rDoc else none

/-- The spec's reminder scenario, verbatim: push token, `notifyEarly`,
interval two hours, `lastCheckedIn = now − 1h55m`, one responder contact
whose document carries a valid token. -/
def uC3bad : UserDoc where
  name := "Carol"
  fcmToken := some "tokC"
  checkInInterval := 7200000
  lastCheckedIn := some (nowC3 - 6900000)
  notify2HoursBefore := true
  notify30MinBefore := false
  contacts := [mkEntryRP "users/r" true false none none]

/-- The corrected reminder scenario: `lastCheckedIn = now − 5min`, so that
`timeLeft = 1h55m` falls inside the early-reminder window. -/
def uC3good : UserDoc where
  name := "Carol"
  fcmToken := some "tokC"
  checkInInterval := 7200000
  lastCheckedIn := some (nowC3 - 300000)
  notify2HoursBefore := true
  notify30MinBefore := false
  contacts := [mkEntryRP "users/r" true false none none]

/-- A malformed user record: `lastCheckedIn` missing, on which the scanner
loop throws. -/
def uBad : UserDoc where
  name := "Mallory"
  fcmToken := some "tokM"
  checkInInterval := 7200000
  lastCheckedIn := none
  notify2HoursBefore := true
  notify30MinBefore := false
  contacts := []

/-- An expired user with no push token but a responder contact whose document
carries a valid token. -/
def uC10 : UserDoc where
  name := "Tom"
  fcmToken := none
  checkInInterval := 3600000
  lastCheckedIn := some 0
  notify2HoursBefore := true
  notify30MinBefore := true
  contacts := [mkEntryRP "users/r" true false none none]

/-! ### General lemmas -/

theorem usersPath_inj {a b : String} (h : "users/" ++ a = "users/" ++ b) : a = b := by
  have h' := congrArg String.data h
  simp only [String.data_append] at h'
  exact String.ext (List.append_cancel_left h')

theorem usersPath_ne_empty (a : String) : "users/" ++ a ≠ "" := by
  intro h
  have h' := congrArg String.data h
  simp only [String.data_append] at h'
  have h2 : "users/".data = [] := (List.append_eq_nil.mp h').1
  exact absurd h2 (by decide)

theorem dbSet_self (s : Store) (p : String) (d : UserDoc) : dbSet s p d p = some d := by
  simp [dbSet]

theorem dbSet_ne (s : Store) (p : String) (d : UserDoc) (q : String) (h : q ≠ p) :
    dbSet s p d q = s q := by
  simp [dbSet, h]

theorem find?_updateFirstBy_self (res : ContactEntry → Option String) (t : Option String)
    (f : ContactEntry → ContactEntry) (hf : ∀ c, res (f c) = res c) (l : List ContactEntry) :
    (updateFirstBy res t f l).find? (fun c => res c == t) = (l.find? (fun c => res c == t)).map f := by
  induction l with
  | nil => simp [updateFirstBy]
  | cons c cs ih =>
    cases h : res c == t with
    | true => simp [updateFirstBy, h, List.find?_cons, hf]
    | false => simp [updateFirstBy, h, List.find?_cons, ih]

theorem find?_updateFirstBy_ne (res : ContactEntry → Option String) (t t' : Option String)
    (f : ContactEntry → ContactEntry) (hf : ∀ c, res (f c) = res c) (hne : t' ≠ t)
    (l : List ContactEntry) :
    (updateFirstBy res t f l).find? (fun c => res c == t') = l.find? (fun c => res c == t') := by
  induction l with
  | nil => simp [updateFirstBy]
  | cons c cs ih =>
    cases h : res c == t with
    | true =>
      have heq : res c = t := eq_of_beq h
      have hfalse : (res c == t') = false := by
        rw [heq]
        exact beq_eq_false_iff_ne.mpr (fun hh => hne hh.symm)
      simp [updateFirstBy, h, List.find?_cons, hf, hfalse]
    | false => simp [updateFirstBy, h, List.find?_cons, ih]

theorem addContactRelation_ok_elim
    (s : Store) (qrl : String → Option String) (uid qr : String) (r d : Bool) (now : Int)
    (s' : Store) (cid : String)
    (hok : addContactRelation s qrl true uid qr r d now = .ok (s', cid)) :
    uid ≠ "" ∧ qrl qr = some cid ∧ uid ≠ cid ∧
    ∃ ud cd,
      s ("users/" ++ uid) = some ud ∧ s ("users/" ++ cid) = some cd ∧
      ud.contacts.find? (fun c => resolveAdd c == some ("users/" ++ cid)) = none ∧
      s' = dbSet (dbSet s ("users/" ++ uid)
              { ud with contacts := ud.contacts ++ [mkUserEntry ("users/" ++ cid) r d now] })
            ("users/" ++ cid)
            { cd with contacts := cd.contacts ++ [mkContactEntry ("users/" ++ uid) r d now] } := by
  unfold addContactRelation at hok
  rw [if_neg (by simp)] at hok
  split at hok
  . exact absurd hok (by simp)
  . next hparams =>
    have huid : uid ≠ "" := fun h => hparams (Or.inl h)
    split at hok
    . exact absurd hok (by simp)
    . next contactUserId hqrl =>
      split at hok
      . exact absurd hok (by simp)
      . next hne =>
        split at hok
        . next userData contactData hud hcd =>
          split at hok
          . exact absurd hok (by simp)
          . next hfind =>
            simp only [Except.ok.injEq, Prod.mk.injEq] at hok
            obtain ⟨hs2, hcid⟩ := hok
            subst hcid
            exact ⟨huid, hqrl, hne, userData, contactData, hud, hcd, hfind, hs2.symm⟩
        . exact absurd hok (by simp)

theorem countRefAdd_append_entry (l : List ContactEntry) (e : ContactEntry) (p : String) :
    countRefAdd (l ++ [e]) p = countRefAdd l p + (if resolveAdd e == some p then 1 else 0) := by
  cases h : resolveAdd e == some p <;>
    simp [countRefAdd, List.filter_append, h]

theorem filter_eq_nil_of_find?_eq_none {p : ContactEntry → Bool} {l : List ContactEntry}
    (h : l.find? p = none) : l.filter p = [] := by
  rw [List.filter_eq_nil_iff]
  intro a ha
  exact List.find?_eq_none.mp h a ha

theorem find?_append_none {p : ContactEntry → Bool} {l1 l2 : List ContactEntry}
    (h : l1.find? p = none) : (l1 ++ l2).find? p = l2.find? p := by
  induction l1 with
  | nil => simp
  | cons c cs ih =>
    rw [List.find?_cons] at h
    cases hc : p c
    · rw [hc] at h
      simp only [List.cons_append, List.find?_cons, hc]
      exact ih h
    · rw [hc] at h
      exact absurd h (by simp)

theorem resolveAdd_mkUserEntry (cp : String) (r d : Bool) (now : Int) (h : ¬ cp = "") :
    resolveAdd (mkUserEntry cp r d now) = some cp := by
  simp [resolveAdd, mkUserEntry, jsOrS, h]

theorem resolveAdd_mkContactEntry (up : String) (r d : Bool) (now : Int) (h : ¬ up = "") :
    resolveAdd (mkContactEntry up r d now) = some up := by
  simp [resolveAdd, mkContactEntry, jsOrS, h]

/-- Claim C1: after a successful `addContactRelation(A, B, r, d)`, A's
contact list holds exactly one entry referencing B, with roles `(r, d)`, and
B's list exactly one entry referencing A, with roles `(d, r)` — the
relationship-symmetry invariant for the pair, provided B did not already hold
an entry for A (A's side is guaranteed by the duplicate check). -/
theorem addContactRelation_symmetric
    (s : Store) (qrl : String → Option String) (uid qr : String) (r d : Bool) (now : Int)
    (s' : Store) (cid : String)
    (hok : addContactRelation s qrl true uid qr r d now = .ok (s', cid))
    (hpre : optAll (s ("users/" ++ cid)) (fun dc => countRefAdd dc.contacts ("users/" ++ uid) == 0) = true) :
    (s' ("users/" ++ uid)).map (fun du => countRefAdd du.contacts ("users/" ++ cid)) = some 1 ∧
    (s' ("users/" ++ cid)).map (fun dc => countRefAdd dc.contacts ("users/" ++ uid)) = some 1 ∧
    rolesAt s' ("users/" ++ uid) ("users/" ++ cid) = some (r, d) ∧
    rolesAt s' ("users/" ++ cid) ("users/" ++ uid) = some (d, r) := by
  obtain ⟨huid, hqrl, hne, ud, cd, hud, hcd, hfind, hs2⟩ := addContactRelation_ok_elim s qrl uid qr r d now s' cid hok
  subst hs2
  have hpne : ("users/" ++ uid) ≠ ("users/" ++ cid) := fun h => hne (usersPath_inj h)
  have hcpne : ¬ ("users/" ++ cid) = "" := usersPath_ne_empty cid
  have hupne : ¬ ("users/" ++ uid) = "" := usersPath_ne_empty uid
  rw [hcd] at hpre
  have hcnt0 : countRefAdd cd.contacts ("users/" ++ uid) = 0 := by
    have := hpre
    simp only [optAll] at this
    exact beq_iff_eq.mp this
  have hcfilter : cd.contacts.filter (fun c => resolveAdd c == some ("users/" ++ uid)) = [] :=
    List.length_eq_zero.mp hcnt0
  have hcfindnone : cd.contacts.find? (fun c => resolveAdd c == some ("users/" ++ uid)) = none := by
    rw [List.find?_eq_none]
    intro x hx
    have := List.filter_eq_nil_iff.mp hcfilter x hx
    simpa using this
  have hlookupU : (dbSet (dbSet s ("users/" ++ uid)
        { ud with contacts := ud.contacts ++ [mkUserEntry ("users/" ++ cid) r d now] })
        ("users/" ++ cid)
        { cd with contacts := cd.contacts ++ [mkContactEntry ("users/" ++ uid) r d now] }) ("users/" ++ uid) =
      some { ud with contacts := ud.contacts ++ [mkUserEntry ("users/" ++ cid) r d now] } := by
    rw [dbSet_ne _ _ _ _ hpne, dbSet_self]
  have hlookupC : (dbSet (dbSet s ("users/" ++ uid)
        { ud with contacts := ud.contacts ++ [mkUserEntry ("users/" ++ cid) r d now] })
        ("users/" ++ cid)
        { cd with contacts := cd.contacts ++ [mkContactEntry ("users/" ++ uid) r d now] }) ("users/" ++ cid) =
      some { cd with contacts := cd.contacts ++ [mkContactEntry ("users/" ++ uid) r d now] } := dbSet_self _ _ _
  refine ⟨?_, ?_, ?_, ?_⟩
  · rw [hlookupU]
    simp only [Option.map_some']
    rw [countRefAdd_append_entry]
    rw [show countRefAdd ud.contacts ("users/" ++ cid) = 0 from
      List.length_eq_zero.mpr (filter_eq_nil_of_find?_eq_none hfind)]
    rw [resolveAdd_mkUserEntry _ _ _ _ hcpne]
    simp
  · rw [hlookupC]
    simp only [Option.map_some']
    rw [countRefAdd_append_entry, hcnt0, resolveAdd_mkContactEntry _ _ _ _ hupne]
    simp
  · rw [rolesAt, hlookupU]
    simp only [Option.some_bind]
    rw [find?_append_none hfind]
    rw [List.find?_cons]
    rw [show (resolveAdd (mkUserEntry ("users/" ++ cid) r d now) == some ("users/" ++ cid)) = true by
      rw [resolveAdd_mkUserEntry _ _ _ _ hcpne]; simp]
    simp [mkUserEntry]
  · rw [rolesAt, hlookupC]
    simp only [Option.some_bind]
    rw [find?_append_none hcfindnone]
    rw [List.find?_cons]
    rw [show (resolveAdd (mkContactEntry ("users/" ++ uid) r d now) == some ("users/" ++ uid)) = true by
      rw [resolveAdd_mkContactEntry _ _ _ _ hupne]; simp]
    simp [mkContactEntry]

theorem addContactRelation_symmetric_witness :
    (sAdd1 ("users/" ++ "a")).map (fun du => countRefAdd du.contacts ("users/" ++ "b")) = some 1 ∧
    (sAdd1 ("users/" ++ "b")).map (fun dc => countRefAdd dc.contacts ("users/" ++ "a")) = some 1 ∧
    rolesAt sAdd1 ("users/" ++ "a") ("users/" ++ "b") = some (true, false) ∧
    rolesAt sAdd1 ("users/" ++ "b") ("users/" ++ "a") = some (false, true) :=
  addContactRelation_symmetric sAdd qrl0 "a" "qb" true false 10 sAdd1 "b" rfl rfl

theorem find?_append_some {p : ContactEntry → Bool} {l1 l2 : List ContactEntry} {x : ContactEntry}
    (h : l1.find? p = some x) : (l1 ++ l2).find? p = some x := by
  induction l1 with
  | nil => simp at h
  | cons c cs ih =>
    rw [List.find?_cons] at h
    cases hc : p c
    · rw [hc] at h
      simp only [List.cons_append, List.find?_cons, hc]
      exact ih h
    · rw [hc] at h
      simp only [List.cons_append, List.find?_cons, hc]
      exact h

/-- Claim C8: once a pair is related by a successful `addContactRelation`, a
second call by either member of the pair (through any token resolving to the
other member) fails `already-exists`, and the failed call leaves both users'
documents — in particular their contact lists — unchanged. -/
theorem addContactRelation_duplicate_rejected
    (s : Store) (qrl : String → Option String) (uid qr : String) (r d : Bool) (now : Int)
    (s' : Store) (cid : String)
    (hok : addContactRelation s qrl true uid qr r d now = .ok (s', cid))
    (qr2 : String) (hqr2 : qr2 ≠ "") (hq2 : qrl qr2 = some cid) (r2 d2 : Bool) (now2 : Int)
    (qr3 : String) (hqr3 : qr3 ≠ "") (hq3 : qrl qr3 = some uid) (hcid : cid ≠ "") (r3 d3 : Bool) (now3 : Int) :
    runAdd s' (addContactRelation s' qrl true uid qr2 r2 d2 now2) =
      (s', some ⟨.alreadyExists, "This user is already in your contacts."⟩) ∧
    runAdd s' (addContactRelation s' qrl true cid qr3 r3 d3 now3) =
      (s', some ⟨.alreadyExists, "This user is already in your contacts."⟩) := by
  obtain ⟨huid, hqrl, hne, ud, cd, hud, hcd, hfind, hs2⟩ :=
    addContactRelation_ok_elim s qrl uid qr r d now s' cid hok
  have hpne : ("users/" ++ uid) ≠ ("users/" ++ cid) := fun h => hne (usersPath_inj h)
  have hcpne : ¬ ("users/" ++ cid) = "" := usersPath_ne_empty cid
  have hupne : ¬ ("users/" ++ uid) = "" := usersPath_ne_empty uid
  have e1 : s' ("users/" ++ uid) =
      some { ud with contacts := ud.contacts ++ [mkUserEntry ("users/" ++ cid) r d now] } := by
    rw [hs2, dbSet_ne _ _ _ _ hpne, dbSet_self]
  have e2 : s' ("users/" ++ cid) =
      some { cd with contacts := cd.contacts ++ [mkContactEntry ("users/" ++ uid) r d now] } := by
    rw [hs2, dbSet_self]
  have herr1 : addContactRelation s' qrl true uid qr2 r2 d2 now2 =
      .error ⟨.alreadyExists, "This user is already in your contacts."⟩ := by
    unfold addContactRelation
    rw [if_neg (by simp), if_neg (not_or.mpr ⟨huid, hqr2⟩)]
    simp only [hq2]
    rw [if_neg hne]
    simp only [e1, e2]
    rw [find?_append_none hfind, List.find?_cons]
    rw [show (resolveAdd (mkUserEntry ("users/" ++ cid) r d now) == some ("users/" ++ cid)) = true by
      rw [resolveAdd_mkUserEntry _ _ _ _ hcpne]; simp]
  have herr2 : addContactRelation s' qrl true cid qr3 r3 d3 now3 =
      .error ⟨.alreadyExists, "This user is already in your contacts."⟩ := by
    unfold addContactRelation
    rw [if_neg (by simp), if_neg (not_or.mpr ⟨hcid, hqr3⟩)]
    simp only [hq3]
    rw [if_neg (fun h => hne h.symm)]
    simp only [e1, e2]
    cases hfind2 : cd.contacts.find? (fun c => resolveAdd c == some ("users/" ++ uid)) with
    | some x => rw [find?_append_some hfind2]
    | none =>
      rw [find?_append_none hfind2, List.find?_cons]
      rw [show (resolveAdd (mkContactEntry ("users/" ++ uid) r d now) == some ("users/" ++ uid)) = true by
        rw [resolveAdd_mkContactEntry _ _ _ _ hupne]; simp]
  exact ⟨by rw [herr1]; rfl, by rw [herr2]; rfl⟩

theorem addContactRelation_duplicate_rejected_witness :
    runAdd sAdd1 (addContactRelation sAdd1 qrl0 true "a" "qb" false true 20) =
      (sAdd1, some ⟨.alreadyExists, "This user is already in your contacts."⟩) ∧
    runAdd sAdd1 (addContactRelation sAdd1 qrl0 true "b" "qa" true true 30) =
      (sAdd1, some ⟨.alreadyExists, "This user is already in your contacts."⟩) :=
  addContactRelation_duplicate_rejected sAdd qrl0 "a" "qb" true false 10 sAdd1 "b" rfl
    "qb" (by decide) rfl false true 20
    "qa" (by decide) rfl (by decide) true true 30

/-- Claim C5 (code bug): after a successful `addContactRelation` the caller's
new entry carries only `referencePath`, but `updateContactRelation` looks the
caller's entry up with `c.reference?.path || c.contact?.path`; the subsequent
preference update therefore throws "Contact relationship not found."
(surfaced as `internal` by the catch-all) instead of succeeding. -/
theorem updateContactRelation_after_add_fails :
    addRes0.isOk = true ∧
    (sAdd1 "users/a").map (fun d => d.contacts.map (fun c => c.referencePath)) = some [some "users/b"] ∧
    updateContactRelation sAdd1 true "users/a" "users/b" reqC5 20 =
      .error ⟨.internalErr, "Contact relationship not found."⟩ :=
  ⟨rfl, rfl, rfl⟩

/-- Claim C4 (code bug): with both documents and both mirrored entries
present but `isDependent = false` on the caller's entry, `pingDependent`
throws `failed-precondition` inside its `try`, yet the surrounding catch-all
rethrows it as `internal`, so the kind surfaced to the caller is `internal`
(message preserved), and no document is written. -/
theorem pingDependent_roleGuard_surfaced_internal
    (s : Store) (u c : String) (now : Int) (du dc : UserDoc) (eu : ContactEntry)
    (hu : u ≠ "") (hc : c ≠ "")
    (hdu : s u = some du) (hdc : s c = some dc)
    (heu : du.contacts.find? (fun e => resolvePR e == some c) = some eu)
    (hec : (dc.contacts.find? (fun e => resolvePR e == some u)).isSome = true)
    (hdep : eu.isDependent = false) :
    runOp s (pingDependent s true u c now) =
      (s, some ⟨.internalErr, "Failed to send ping to dependent: Contact is not a dependent."⟩) := by
  obtain ⟨ec, hec2⟩ := Option.isSome_iff_exists.mp hec
  have hbody : pingDependentBody s u c now =
      .error ⟨.failedPrecondition, "Contact is not a dependent."⟩ := by
    unfold pingDependentBody
    simp only [hdu, hdc, heu, hec2]
    rw [if_pos hdep]
  have hres : pingDependent s true u c now =
      .error ⟨.internalErr, "Failed to send ping to dependent: Contact is not a dependent."⟩ := by
    unfold pingDependent
    rw [if_neg (by simp), if_neg (not_or.mpr ⟨hu, hc⟩), hbody]
    rfl
  rw [hres]; rfl

theorem pingDependent_roleGuard_surfaced_internal_witness :
    runOp sC4 (pingDependent sC4 true "users/a" "users/b" 9) =
      (sC4, some ⟨.internalErr, "Failed to send ping to dependent: Contact is not a dependent."⟩) :=
  pingDependent_roleGuard_surfaced_internal sC4 "users/a" "users/b" 9
    { freshDoc "Alice" (some "tokA") with contacts := [mkEntryRP "users/b" true false none none] }
    { freshDoc "Bob" (some "tokB") with contacts := [mkEntryRP "users/a" false true none none] }
    (mkEntryRP "users/b" true false none none)
    (by decide) (by decide) rfl rfl rfl rfl rfl

theorem resolvePR_setOutgoing (now : Int) (c : ContactEntry) :
    resolvePR (setOutgoing now c) = resolvePR c := rfl

theorem resolvePR_setIncoming (now : Int) (c : ContactEntry) :
    resolvePR (setIncoming now c) = resolvePR c := rfl

theorem resolvePR_clearIncoming (now : Int) (c : ContactEntry) :
    resolvePR (clearIncoming now c) = resolvePR c := rfl

theorem resolvePR_clearOutgoing (now : Int) (c : ContactEntry) :
    resolvePR (clearOutgoing now c) = resolvePR c := rfl

theorem entryFor_pairUpdate
    (s : Store) (u c : String) (du dc : UserDoc)
    (fu fc : ContactEntry → ContactEntry)
    (hfu : ∀ e, resolvePR (fu e) = resolvePR e) (hfc : ∀ e, resolvePR (fc e) = resolvePR e)
    (huc : u ≠ c) (hdu : s u = some du) (hdc : s c = some dc)
    (q t : String) :
    entryFor (dbSet (dbSet s u { du with contacts := updateFirstBy resolvePR (some c) fu du.contacts })
               c { dc with contacts := updateFirstBy resolvePR (some u) fc dc.contacts }) q t =
      (if q = c then (if t = u then (entryFor s c u).map fc else entryFor s c t)
       else if q = u then (if t = c then (entryFor s u c).map fu else entryFor s u t)
       else entryFor s q t) := by
  by_cases hqc : q = c
  · subst hqc
    rw [if_pos rfl]
    unfold entryFor
    rw [dbSet_self]
    simp only [Option.some_bind]
    by_cases htu : t = u
    · subst htu
      rw [if_pos rfl, hdc]
      simp only [Option.some_bind]
      exact find?_updateFirstBy_self resolvePR (some t) fc hfc dc.contacts
    · rw [if_neg htu, hdc]
      simp only [Option.some_bind]
      exact find?_updateFirstBy_ne resolvePR (some u) (some t) fc hfc
        (fun h => htu (Option.some.inj h)) dc.contacts
  · rw [if_neg hqc]
    by_cases hqu : q = u
    · subst hqu
      rw [if_pos rfl]
      unfold entryFor
      rw [dbSet_ne _ _ _ _ hqc, dbSet_self]
      simp only [Option.some_bind]
      by_cases htc : t = c
      · subst htc
        rw [if_pos rfl, hdu]
        simp only [Option.some_bind]
        exact find?_updateFirstBy_self resolvePR (some t) fu hfu du.contacts
      · rw [if_neg htc, hdu]
        simp only [Option.some_bind]
        exact find?_updateFirstBy_ne resolvePR (some c) (some t) fu hfu
          (fun h => htc (Option.some.inj h)) du.contacts
    · rw [if_neg hqu]
      unfold entryFor
      rw [dbSet_ne _ _ _ _ hqc, dbSet_ne _ _ _ _ hqu]

theorem pingMirrored_map_preserved {a b : Option ContactEntry}
    (f g : ContactEntry → ContactEntry)
    (hf : ∀ e, (f e).outgoingPingTimestamp = e.outgoingPingTimestamp)
    (hg : ∀ e, (g e).incomingPingTimestamp = e.incomingPingTimestamp)
    (h : pingMirrored a b) : pingMirrored (a.map f) (b.map g) := by
  cases a with
  | none => cases b <;> trivial
  | some ea =>
    cases b with
    | none => trivial
    | some eb =>
      show (f ea).outgoingPingTimestamp = (g eb).incomingPingTimestamp
      rw [hf, hg]
      exact h

theorem pingMirrored_map_set {a b : Option ContactEntry} (v : Option Int)
    (f g : ContactEntry → ContactEntry)
    (hf : ∀ e, (f e).outgoingPingTimestamp = v)
    (hg : ∀ e, (g e).incomingPingTimestamp = v) :
    pingMirrored (a.map f) (b.map g) := by
  cases a with
  | none => cases b <;> trivial
  | some ea =>
    cases b with
    | none => trivial
    | some eb =>
      show (f ea).outgoingPingTimestamp = (g eb).incomingPingTimestamp
      rw [hf, hg]

theorem pairPing_pairUpdate
    (s : Store) (u c : String) (du dc : UserDoc)
    (fu fc : ContactEntry → ContactEntry)
    (hfu : ∀ e, resolvePR (fu e) = resolvePR e) (hfc : ∀ e, resolvePR (fc e) = resolvePR e)
    (huc : u ≠ c) (hdu : s u = some du) (hdc : s c = some dc)
    (hacted : pingMirrored (entryFor s u c) (entryFor s c u) →
      pingMirrored ((entryFor s u c).map fu) ((entryFor s c u).map fc))
    (hflipped : pingMirrored (entryFor s c u) (entryFor s u c) →
      pingMirrored ((entryFor s c u).map fc) ((entryFor s u c).map fu))
    (pa pb : String) (hinv : pairPing s pa pb) :
    pairPing (dbSet (dbSet s u { du with contacts := updateFirstBy resolvePR (some c) fu du.contacts })
               c { dc with contacts := updateFirstBy resolvePR (some u) fc dc.contacts }) pa pb := by
  unfold pairPing
  rw [entryFor_pairUpdate s u c du dc fu fc hfu hfc huc hdu hdc pa pb,
      entryFor_pairUpdate s u c du dc fu fc hfu hfc huc hdu hdc pb pa]
  by_cases h1 : pa = c
  · subst h1
    rw [if_pos rfl]
    by_cases h2 : pb = u
    · subst h2
      rw [if_pos rfl, if_neg huc, if_pos rfl, if_pos rfl]
      exact hflipped hinv
    · rw [if_neg h2]
      by_cases h3 : pb = pa
      · subst h3
        rw [if_pos rfl, if_neg (fun h => huc h.symm)]
        exact hinv
      · rw [if_neg h3, if_neg h2]
        exact hinv
  · rw [if_neg h1]
    by_cases h2 : pa = u
    · subst h2
      rw [if_pos rfl]
      by_cases h3 : pb = c
      · subst h3
        rw [if_pos rfl, if_pos rfl, if_pos rfl]
        exact hacted hinv
      · rw [if_neg h3]
        by_cases h4 : pb = pa
        · subst h4
          rw [if_neg huc, if_pos rfl, if_neg huc]
          exact hinv
        · rw [if_neg h3, if_neg h4]
          exact hinv
    · rw [if_neg h2]
      by_cases h3 : pb = c
      · subst h3
        rw [if_pos rfl, if_neg h2]
        exact hinv
      · by_cases h4 : pb = u
        · subst h4
          rw [if_neg huc, if_pos rfl, if_neg h1]
          exact hinv
        · rw [if_neg h3, if_neg h4]
          exact hinv

theorem pingDependent_ok_elim (s : Store) (u c : String) (now : Int) (s' : Store)
    (hok : pingDependent s true u c now = .ok s') :
    ∃ du dc, s u = some du ∧ s c = some dc ∧
      s' = dbSet (dbSet s u
              { du with contacts := updateFirstBy resolvePR (some c) (setOutgoing now) du.contacts })
            c { dc with contacts := updateFirstBy resolvePR (some u) (setIncoming now) dc.contacts } := by
  unfold pingDependent at hok
  rw [if_neg (by simp)] at hok
  split at hok
  · exact absurd hok (by simp)
  · split at hok
    · next s2 hbody =>
      simp only [Except.ok.injEq] at hok
      subst hok
      unfold pingDependentBody at hbody
      split at hbody
      · next du dc hdu hdc =>
        split at hbody
        · next eu ec heu hec =>
          split at hbody
          · exact absurd hbody (by simp)
          · simp only [Except.ok.injEq] at hbody
            exact ⟨du, dc, hdu, hdc, hbody.symm⟩
        · exact absurd hbody (by simp)
      · exact absurd hbody (by simp)
    · next e hbody => exact absurd hok (by simp)

theorem respondToPing_ok_elim (s : Store) (u c : String) (now : Int) (s' : Store)
    (hok : respondToPing s true u c now = .ok s') :
    ∃ du dc, s u = some du ∧ s c = some dc ∧
      s' = dbSet (dbSet s u
              { du with contacts := updateFirstBy resolvePR (some c) (clearIncoming now) du.contacts })
            c { dc with contacts := updateFirstBy resolvePR (some u) (clearOutgoing now) dc.contacts } := by
  unfold respondToPing at hok
  rw [if_neg (by simp)] at hok
  split at hok
  · exact absurd hok (by simp)
  · split at hok
    · next s2 hbody =>
      simp only [Except.ok.injEq] at hok
      subst hok
      unfold respondToPingBody at hbody
      split at hbody
      · next du dc hdu hdc =>
        split at hbody
        · next eu ec heu hec =>
          simp only [Except.ok.injEq] at hbody
          exact ⟨du, dc, hdu, hdc, hbody.symm⟩
        · exact absurd hbody (by simp)
      · exact absurd hbody (by simp)
    · next e hbody => exact absurd hok (by simp)

theorem clearPing_ok_elim (s : Store) (u c : String) (now : Int) (s' : Store)
    (hok : clearPing s true u c now = .ok s') :
    ∃ du dc, s u = some du ∧ s c = some dc ∧
      s' = dbSet (dbSet s u
              { du with contacts := updateFirstBy resolvePR (some c) (clearOutgoing now) du.contacts })
            c { dc with contacts := updateFirstBy resolvePR (some u) (clearIncoming now) dc.contacts } := by
  unfold clearPing at hok
  rw [if_neg (by simp)] at hok
  split at hok
  · exact absurd hok (by simp)
  · split at hok
    · next s2 hbody =>
      simp only [Except.ok.injEq] at hok
      subst hok
      unfold clearPingBody at hbody
      split at hbody
      · next du dc hdu hdc =>
        split at hbody
        · next eu ec heu hec =>
          split at hbody
          · exact absurd hbody (by simp)
          · simp only [Except.ok.injEq] at hbody
            exact ⟨du, dc, hdu, hdc, hbody.symm⟩
        · exact absurd hbody (by simp)
      · exact absurd hbody (by simp)
    · next e hbody => exact absurd hok (by simp)

/-- Claim C2 (amended): the ping-pairing invariant — for any ordered pair of
paths, the first document's entry's `outgoingPingTimestamp` equals the second
document's mirrored entry's `incomingPingTimestamp` whenever both entries
exist — is preserved by every successful `pingDependent`, `respondToPing` and
`clearPing` between two distinct documents.  (`respondToAllPings` does not
preserve it; see the counterexample.) -/
theorem pingOps_preserve_pairPing
    (s : Store) (now : Int) (op : PingOp) (s' : Store) (pa pb : String)
    (hargs : op.argsDistinct)
    (hok : applyPingOp s now op = .ok s')
    (hinv : pairPing s pa pb) :
    pairPing s' pa pb := by
  cases op with
  | ping u c =>
    obtain ⟨du, dc, hdu, hdc, hs2⟩ := pingDependent_ok_elim s u c now s' hok
    subst hs2
    exact pairPing_pairUpdate s u c du dc _ _
      (resolvePR_setOutgoing now) (resolvePR_setIncoming now) hargs hdu hdc
      (fun _ => pingMirrored_map_set (some now) _ _ (fun e => rfl) (fun e => rfl))
      (pingMirrored_map_preserved _ _ (fun e => rfl) (fun e => rfl))
      pa pb hinv
  | respond u c =>
    obtain ⟨du, dc, hdu, hdc, hs2⟩ := respondToPing_ok_elim s u c now s' hok
    subst hs2
    exact pairPing_pairUpdate s u c du dc _ _
      (resolvePR_clearIncoming now) (resolvePR_clearOutgoing now) hargs hdu hdc
      (pingMirrored_map_preserved _ _ (fun e => rfl) (fun e => rfl))
      (fun _ => pingMirrored_map_set none _ _ (fun e => rfl) (fun e => rfl))
      pa pb hinv
  | clear u c =>
    obtain ⟨du, dc, hdu, hdc, hs2⟩ := clearPing_ok_elim s u c now s' hok
    subst hs2
    exact pairPing_pairUpdate s u c du dc _ _
      (resolvePR_clearOutgoing now) (resolvePR_clearIncoming now) hargs hdu hdc
      (fun _ => pingMirrored_map_set none _ _ (fun e => rfl) (fun e => rfl))
      (pingMirrored_map_preserved _ _ (fun e => rfl) (fun e => rfl))
      pa pb hinv

/-- Claim C2 counterexample: `respondToAllPings` does not preserve the
ping-pairing invariant: starting from a paired state (outgoing = incoming =
instant 5), the bulk respond by the recipient clears its incoming timestamp
but leaves the sender's outgoing timestamp non-null. -/
theorem respondToAllPings_breaks_pairPing :
    pairPing sPing2 "users/a" "users/b" ∧
    respondToAllPings sPing2 true "users/b" 9 = .ok rtapC2Res ∧
    ¬ pairPing rtapC2Res "users/a" "users/b" ∧
    (rtapC2Res "users/a").map (fun d => d.contacts.map (fun c => c.outgoingPingTimestamp)) = some [some 5] ∧
    (rtapC2Res "users/b").map (fun d => d.contacts.map (fun c => c.incomingPingTimestamp)) = some [none] :=
  ⟨by decide, rfl, by decide, rfl, rfl⟩

theorem pingOps_preserve_pairPing_witness :
    pairPing c2WitRes "users/a" "users/b" :=
  pingOps_preserve_pairPing sPing2 9 (.respond "users/b" "users/a") c2WitRes "users/a" "users/b"
    (show ("users/b" : String) ≠ "users/a" by decide) rfl (by decide)

theorem resolvePR_updateFirstBy_map (res : ContactEntry → Option String) (t : Option String)
    (f : ContactEntry → ContactEntry) (hf : ∀ c, res (f c) = res c) (l : List ContactEntry) :
    (updateFirstBy res t f l).map res = l.map res := by
  induction l with
  | nil => rfl
  | cons c cs ih =>
    cases h : res c == t with
    | true => simp [updateFirstBy, h, hf]
    | false => simp [updateFirstBy, h, ih]

theorem updateFirstBy_eq_map_of_nodup (res : ContactEntry → Option String) (t : Option String)
    (f : ContactEntry → ContactEntry) (l : List ContactEntry) (hnd : (l.map res).Nodup) :
    updateFirstBy res t f l = l.map (fun e => if res e == t then f e else e) := by
  induction l with
  | nil => rfl
  | cons c cs ih =>
    rw [List.map_cons, List.nodup_cons] at hnd
    cases h : res c == t with
    | false =>
      simp only [updateFirstBy, h, List.map_cons, Bool.false_eq_true, if_false]
      rw [ih hnd.2]
    | true =>
      have hct : res c = t := eq_of_beq h
      have hrest : ∀ e ∈ cs, (res e == t) = false := by
        intro e he
        have : res e ≠ res c := fun hh => hnd.1 (hh ▸ List.mem_map_of_mem res he)
        rw [hct] at this
        exact beq_eq_false_iff_ne.mpr this
      simp only [updateFirstBy, h, List.map_cons, if_true]
      have : cs.map (fun e => if res e == t then f e else e) = cs.map id := by
        apply List.map_congr_left
        intro e he
        rw [hrest e he]
        rfl
      rw [this, List.map_id]

theorem clearIncoming_idem (now : Int) (e : ContactEntry) :
    clearIncoming now (clearIncoming now e) = clearIncoming now e := rfl

theorem foldl_clearIncomingFirst_eq_map (now : Int) (ps l : List ContactEntry)
    (hnd : (l.map resolvePR).Nodup) :
    ps.foldl (fun acc ct => clearIncomingFirst now acc (resolvePR ct)) l =
      l.map (fun e => if resolvePR e ∈ ps.map resolvePR then clearIncoming now e else e) := by
  induction ps generalizing l with
  | nil =>
    simp only [List.foldl_nil, List.map_nil, List.not_mem_nil, if_false]
    exact (List.map_id l).symm
  | cons ct ps ih =>
    rw [List.foldl_cons]
    have hstep : clearIncomingFirst now l (resolvePR ct) =
        l.map (fun e => if resolvePR e == resolvePR ct then clearIncoming now e else e) :=
      updateFirstBy_eq_map_of_nodup resolvePR (resolvePR ct) (clearIncoming now) l hnd
    have hres : (l.map (fun e => if resolvePR e == resolvePR ct then clearIncoming now e else e)).map resolvePR
        = l.map resolvePR := by
      rw [List.map_map]
      apply List.map_congr_left
      intro e he
      by_cases hc : resolvePR e == resolvePR ct
      · simp [Function.comp, hc, resolvePR_clearIncoming]
      · simp [Function.comp, hc]
    rw [hstep, ih _ (by rw [hres]; exact hnd), List.map_map]
    apply List.map_congr_left
    intro e he
    simp only [Function.comp]
    by_cases h1 : resolvePR e == resolvePR ct
    · have h1' : resolvePR e = resolvePR ct := eq_of_beq h1
      rw [if_pos h1]
      by_cases h2 : resolvePR (clearIncoming now e) ∈ ps.map resolvePR
      · rw [if_pos h2, clearIncoming_idem,
            if_pos (by rw [List.map_cons, h1']; exact List.mem_cons_self _ _)]
      · rw [if_neg h2, if_pos (by rw [List.map_cons, h1']; exact List.mem_cons_self _ _)]
    · rw [if_neg h1]
      by_cases h2 : resolvePR e ∈ ps.map resolvePR
      · rw [if_pos h2, if_pos (by rw [List.map_cons]; exact List.mem_cons_of_mem _ h2)]
      · rw [if_neg h2, if_neg (by
          rw [List.map_cons]
          intro hmem
          rcases List.mem_cons.mp hmem with h3 | h3
          · exact absurd (beq_iff_eq.mpr h3) (by simp [h1])
          · exact h2 h3)]

theorem foldl_clear_all_incoming_none (now : Int) (l : List ContactEntry)
    (hnd : (l.map resolvePR).Nodup) :
    ∀ e ∈ (l.filter (fun c => c.incomingPingTimestamp.isSome)).foldl
        (fun acc ct => clearIncomingFirst now acc (resolvePR ct)) l,
      e.incomingPingTimestamp = none := by
  intro e he
  rw [foldl_clearIncomingFirst_eq_map now _ l hnd] at he
  obtain ⟨e0, he0, rfl⟩ := List.mem_map.mp he
  by_cases hc : resolvePR e0 ∈ (l.filter (fun c => c.incomingPingTimestamp.isSome)).map resolvePR
  · rw [if_pos hc]
    rfl
  · rw [if_neg hc]
    cases hp : e0.incomingPingTimestamp with
    | none => rfl
    | some v =>
      exact absurd (List.mem_map_of_mem resolvePR
        (List.mem_filter.mpr ⟨he0, by rw [hp]; rfl⟩)) hc

/-- Claim C7: a successful `respondToAllPings` writes only the caller's
document (every other path is untouched — in particular every sender's
`outgoingPingTimestamp` is unchanged), and afterwards every entry of the
caller's contact list has a null `incomingPingTimestamp` (provided the
caller's entries resolve to pairwise distinct references, as `findIndex` by
resolved path identifies each pinged entry with itself). -/
theorem respondToAllPings_clears_only_caller
    (s : Store) (u : String) (now : Int) (s' : Store)
    (hnd : optAll (s u) (fun d => decide (d.contacts.map resolvePR).Nodup) = true)
    (hok : respondToAllPings s true u now = .ok s') :
    (∀ q, q ≠ u → s' q = s q) ∧
    (∀ d, s' u = some d → ∀ e ∈ d.contacts, e.incomingPingTimestamp = none) := by
  unfold respondToAllPings at hok
  rw [if_neg (by simp)] at hok
  split at hok
  · exact absurd hok (by simp)
  · split at hok
    · next s2 hbody =>
      simp only [Except.ok.injEq] at hok
      subst hok
      unfold respondToAllPingsBody at hbody
      split at hbody
      · exact absurd hbody (by simp)
      · next du hdu =>
        rw [hdu] at hnd
        have hnodup : (du.contacts.map resolvePR).Nodup :=
          of_decide_eq_true (by simpa [optAll] using hnd)
        split at hbody
        · next hemp =>
          simp only [Except.ok.injEq] at hbody
          subst hbody
          refine ⟨fun q hq => rfl, fun d hd e he => ?_⟩
          rw [hdu, Option.some.injEq] at hd
          subst hd
          have hfil : du.contacts.filter (fun c => c.incomingPingTimestamp.isSome) = [] :=
            List.isEmpty_iff.mp hemp
          cases hp : e.incomingPingTimestamp with
          | none => rfl
          | some v =>
            have : e ∈ du.contacts.filter (fun c => c.incomingPingTimestamp.isSome) :=
              List.mem_filter.mpr ⟨he, by rw [hp]; rfl⟩
            rw [hfil] at this
            exact absurd this (List.not_mem_nil e)
        · next hemp =>
          simp only [Except.ok.injEq] at hbody
          subst hbody
          refine ⟨fun q hq => dbSet_ne _ _ _ _ hq, fun d hd e he => ?_⟩
          rw [dbSet_self, Option.some.injEq] at hd
          subst hd
          exact foldl_clear_all_incoming_none now du.contacts hnodup e he
    · next e hbody => exact absurd hok (by simp)

theorem respondToAllPings_clears_only_caller_witness :
    c7Res "users/a" = sPing7 "users/a" ∧ c7Res "users/x" = sPing7 "users/x" ∧
    c7AllCleared = true := by
  have h := respondToAllPings_clears_only_caller sPing7 "users/b" 9 c7Res rfl rfl
  exact ⟨h.1 "users/a" (by decide), h.1 "users/x" (by decide), by decide⟩

theorem resolveUCR_applyReqRecip (req : UpdateReq) (now : Int) (e : ContactEntry) :
    resolveUCR (applyReqRecip req now e) = resolveUCR e := rfl

/-- Claim C6 counterexample: with `updateReciprocal = true` and a request
carrying `isResponder = true`, the reciprocal entry's `isDependent` flips
from `false` to `true`: role flags ARE mirrored onto the reciprocal entry. -/
theorem updateContactRelation_mirrors_roles_cex :
    (updateContactRelation sC6 true "users/a" "users/b" reqC6 7).isOk = true ∧
    (sC6 "users/b").map (fun d => d.contacts.map (fun c => (c.isResponder, c.isDependent))) =
      some [(false, false)] ∧
    (c6Res "users/b").map (fun d => d.contacts.map (fun c => (c.isResponder, c.isDependent))) =
      some [(false, true)] :=
  ⟨rfl, rfl, rfl⟩

/-- Claim C6 (amended): when `updateReciprocal` is true and the reciprocal
entry exists, the reciprocal entry receives the swapped role flags whenever
the request carries them (`isDependent := req.isResponder`, `isResponder :=
req.isDependent`; unchanged when the request omits them), the swapped ping
preferences, a refreshed `lastUpdated`, and nothing else: display fields,
notification flags and ping timestamps are untouched. -/
theorem updateContactRelation_reciprocal_fields
    (s : Store) (u c : String) (req : UpdateReq) (now : Int) (s' : Store)
    (dc : UserDoc) (ec : ContactEntry)
    (hrecip : req.updateReciprocal = true)
    (hok : updateContactRelation s true u c req now = .ok s')
    (hdc : s c = some dc)
    (hec : dc.contacts.find? (fun e => resolveUCR e == some u) = some ec) :
    recipEntry s' u c = some (applyReqRecip req now ec) ∧
    (applyReqRecip req now ec).isResponder = req.isDependent.getD ec.isResponder ∧
    (applyReqRecip req now ec).isDependent = req.isResponder.getD ec.isDependent ∧
    (applyReqRecip req now ec).sendPings =
      (match req.receivePings with | some b => some b | none => ec.sendPings) ∧
    (applyReqRecip req now ec).receivePings =
      (match req.sendPings with | some b => some b | none => ec.receivePings) ∧
    (applyReqRecip req now ec).notifyOnCheckIn = ec.notifyOnCheckIn ∧
    (applyReqRecip req now ec).notifyOnExpiry = ec.notifyOnExpiry ∧
    (applyReqRecip req now ec).nickname = ec.nickname ∧
    (applyReqRecip req now ec).notes = ec.notes ∧
    (applyReqRecip req now ec).incomingPingTimestamp = ec.incomingPingTimestamp ∧
    (applyReqRecip req now ec).outgoingPingTimestamp = ec.outgoingPingTimestamp ∧
    (applyReqRecip req now ec).lastUpdated = some now := by
  refine ⟨?_, rfl, rfl, rfl, rfl, rfl, rfl, rfl, rfl, rfl, rfl, rfl⟩
  unfold updateContactRelation at hok
  rw [if_neg (by simp)] at hok
  split at hok
  · exact absurd hok (by simp)
  · split at hok
    · next s2 hbody =>
      simp only [Except.ok.injEq] at hok
      subst hok
      unfold updateContactRelationBody at hbody
      split at hbody
      · next du dc2 hdu hdc2 =>
        rw [hdc, Option.some.injEq] at hdc2
        subst hdc2
        split at hbody
        · exact absurd hbody (by simp)
        · next eu heu =>
          split at hbody
          · split at hbody
            · next ec2 hec2 =>
              rw [hec, Option.some.injEq] at hec2
              subst hec2
              simp only [Except.ok.injEq] at hbody
              subst hbody
              unfold recipEntry
              rw [dbSet_self]
              simp only [Option.some_bind]
              rw [find?_updateFirstBy_self resolveUCR (some u) (applyReqRecip req now)
                (resolveUCR_applyReqRecip req now) dc.contacts, hec]
              rfl
            · next hec2 => rw [hec] at hec2; exact absurd hec2 (by simp)
          · next hrecip2 => exact absurd hrecip (by simp [hrecip2])
      · exact absurd hbody (by simp)
    · next e2 hbody => exact absurd hok (by simp)

theorem updateContactRelation_reciprocal_fields_witness :
    recipEntry c6Res "users/a" "users/b" = some (applyReqRecip reqC6 7 (mkEntryRef "users/a" false false)) ∧
    (applyReqRecip reqC6 7 (mkEntryRef "users/a" false false)).isDependent = true := by
  have h := updateContactRelation_reciprocal_fields sC6 "users/a" "users/b" reqC6 7 c6Res
    { freshDoc "Bob" (some "tokB") with contacts := [mkEntryRef "users/a" false false] }
    (mkEntryRef "users/a" false false)
    rfl rfl rfl rfl
  exact ⟨h.1, by decide⟩

/-- Claim C10: a user record with no (truthy) push token is skipped before
any notification branch: the scanner emits nothing on that user's behalf,
including no emergency alert to its responders, whatever the deadline
state. -/
theorem scanner_skips_tokenless
    (s : Store) (now : Int) (docId : String) (u : UserDoc) (lc : Int)
    (hlc : u.lastCheckedIn = some lc)
    (ht : tokenTruthy u.fcmToken = none) :
    notifsForUser s now docId u = .ok [] := by
  unfold notifsForUser
  rw [hlc, ht]

theorem scanner_skips_tokenless_witness :
    notifsForUser sScan 7200000 "u10" uC10 = .ok [] :=
  scanner_skips_tokenless sScan 7200000 "u10" uC10 0 rfl rfl

/-- Claim C3 (amended): whenever a user has a truthy token, `notifyEarly`
set, and `timeLeft = lastCheckedIn + checkInInterval − now` inside the open
early window `(1.9h, 2.0h)` of milliseconds, one scanner pass over that user
sends exactly the one "expires in 2 hours" reminder to the user's own token
and nothing to any contact (with 1h55m left the deadline has not passed, so
the responder branch is never entered). -/
theorem scanner_early_window
    (s : Store) (now : Int) (docId : String) (u : UserDoc) (lc : Int) (t : String)
    (hlc : u.lastCheckedIn = some lc)
    (ht : tokenTruthy u.fcmToken = some t)
    (hflag : u.notify2HoursBefore = true)
    (hlow : earlyLowMs < lc + u.checkInInterval - now)
    (hhigh : lc + u.checkInInterval - now < twoHoursMs) :
    scanUsers s now [(docId, u)] =
      ([⟨t, "Check-in Reminder", "Your check-in expires in 2 hours"⟩], none) := by
  unfold scanUsers notifsForUser
  simp only [hlc, ht]
  rw [if_pos ⟨hflag, hhigh, hlow⟩]
  rw [if_neg (by
    rintro ⟨h30, hlt, hgt⟩
    rw [thirtyMinMs] at hlt
    rw [earlyLowMs] at hlow
    omega)]
  rw [if_neg (by
    rw [earlyLowMs] at hlow
    omega)]
  rfl

theorem scanner_early_window_witness :
    scanUsers sScan nowC3 [("ug", uC3good)] =
      ([⟨"tokC", "Check-in Reminder", "Your check-in expires in 2 hours"⟩], none) :=
  scanner_early_window sScan nowC3 "ug" uC3good (nowC3 - 300000) "tokC" rfl rfl rfl
    (by decide) (by decide)

/-- Claim C3 counterexample: in the spec's scenario — token present,
`notifyEarly` set, interval two hours, `lastCheckedIn = now − 1h55m` (so
`timeLeft` is five minutes) — the scanner sends nothing at all: five minutes
lies outside the `(1.9h, 2h)` early window, outside the 30-minute window,
and the deadline has not passed. -/
theorem scanner_spec_scenario_sends_nothing :
    uC3bad.lastCheckedIn = some (nowC3 - 6900000) ∧
    scanUsers sScan nowC3 [("u3", uC3bad)] = ([], none) :=
  ⟨rfl, rfl⟩

/-- Claim C9 (amended): an uncaught per-user failure (reading
`lastCheckedIn.toDate()` on a malformed record) aborts the whole scan loop:
no user after the failing one is processed, whatever the rest of the
snapshot holds; users before the failing one are processed normally. -/
theorem scanner_failure_aborts_rest
    (s : Store) (now : Int) (docId : String) (u : UserDoc) (e : ScanErr)
    (herr : notifsForUser s now docId u = .error e) :
    (∀ rest : List (String × UserDoc), scanUsers s now ((docId, u) :: rest) = ([], some e)) ∧
    (∀ pre rest, (∀ x ∈ pre, (notifsForUser s now x.1 x.2).isOk = true) →
      scanUsers s now (pre ++ (docId, u) :: rest) = ((scanUsers s now pre).1, some e)) := by
  have hbase : ∀ rest : List (String × UserDoc),
      scanUsers s now ((docId, u) :: rest) = ([], some e) := by
    intro rest
    unfold scanUsers
    rw [herr]
  refine ⟨hbase, ?_⟩
  intro pre rest hpre
  induction pre with
  | nil => simpa using hbase rest
  | cons x xs ih =>
    obtain ⟨nsx, hx⟩ : ∃ nsx, notifsForUser s now x.1 x.2 = .ok nsx := by
      have := hpre x (List.mem_cons_self x xs)
      cases hres : notifsForUser s now x.1 x.2 with
      | ok nsx => exact ⟨nsx, rfl⟩
      | error ex => rw [hres] at this; exact absurd this (by simp [Except.isOk, Except.toBool])
    have ihh := ih (fun y hy => hpre y (List.mem_cons_of_mem x hy))
    show scanUsers s now ((x :: xs) ++ (docId, u) :: rest) = _
    rw [List.cons_append]
    unfold scanUsers
    rw [hx]
    simp only []
    rw [ihh]

theorem scanner_failure_aborts_rest_witness :
    scanUsers sScan nowC3 ([("g1", uC3good)] ++ ("bad", uBad) :: [("g2", uC3good)]) =
      ((scanUsers sScan nowC3 [("g1", uC3good)]).1, some (.missingLastCheckedIn "bad")) :=
  (scanner_failure_aborts_rest sScan nowC3 "bad" uBad (.missingLastCheckedIn "bad") rfl).2
    [("g1", uC3good)] [("g2", uC3good)] (by decide)

/-- Claim C9 counterexample: one malformed record aborts the scan — with the
malformed user first, the valid user behind it receives nothing, although
scanning the valid user alone sends its reminder. -/
theorem scanner_failure_drops_valid_user :
    scanUsers sScan nowC3 [("bad", uBad), ("ug2", uC3good)] =
      ([], some (.missingLastCheckedIn "bad")) ∧
    scanUsers sScan nowC3 [("ug2", uC3good)] =
      ([⟨"tokC", "Check-in Reminder", "Your check-in expires in 2 hours"⟩], none) :=
  ⟨rfl, rfl⟩
